import Mathlib

/-!
Shallow embedding of the NNLO training drivers
(`TrainingDriver.py` and `hyperparameter_search_option3.py`) and
verification of the specification's claims about them.

Python machine-level details are modelled as follows: Python ints are `ℤ`
(or `ℕ` where the source value is a nonnegative count such as an MPI rank
or communicator size), Python floats arising from exact arithmetic on
user-supplied decimal options are `ℚ`, strings are Lean `String` backed by
`List Char`, runtime exceptions are an explicit error type, and the
filesystem is an explicit map from path to file content.
-/

/-- Python runtime errors that the modelled driver code can raise. -/
inductive PyErr
  | nameError
  | typeError
  | assertionError
  | indexError
  deriving DecidableEq, Repr

/-! ## String helpers (List-Char based, structurally recursive) -/

/-- `leadsWith pat l` is true when the list `l` starts with `pat`
(character-by-character comparison).  Used to model Python substring and
suffix tests without relying on `String` primitives. -/
def leadsWith : List Char → List Char → Bool
  | [], _ => true
  | _ :: _, [] => false
  | a :: as, b :: bs => a = b && leadsWith as bs

/-- `occursIn pat l` models Python's `pat in l` substring test: `pat`
occurs contiguously somewhere in `l`. -/
def occursIn : List Char → List Char → Bool
  | pat, [] => pat.isEmpty
  | pat, c :: rest => leadsWith pat (c :: rest) || occursIn pat rest

/-- Python's `needle in haystack` on strings. -/
def pyIn (needle haystack : String) : Bool :=
  occursIn needle.data haystack.data

/-- Helper for `splitlines`: cut a character list at every newline,
accumulating the current line in reverse. -/
def splitLinesAux : List Char → List Char → List (List Char)
  | [], acc => [acc.reverse]
  | c :: rest, acc =>
      if c = '\n' then acc.reverse :: splitLinesAux rest []
      else splitLinesAux rest (c :: acc)

/-- Python's `str.splitlines()` restricted to `'\n'` line breaks: the
list of lines, with no trailing empty line when the string ends in a
newline, and `[]` on the empty string. -/
def splitlines (s : String) : List String :=
  match s.data with
  | [] => []
  | l =>
      let parts := splitLinesAux l []
      let parts := if l.getLast? = some '\n' then parts.dropLast else parts
      parts.map fun cs => ⟨cs⟩

/-! ## TrainingDriver.py: backend selection (claim C10) -/

/-- `TrainingDriver.py` lines 93-95:
`a_backend = args.backend; if 'torch' in args.model: a_backend = 'torch'`. -/
def effectiveBackend (backend model : String) : String :=
  if pyIn "torch" model then "torch" else backend

/-! ## TrainingDriver.py: mode dispatch (claim C5) -/

/-- The `choices` list of the `--mode` argparse option
(`TrainingDriver.py` lines 71-72). -/
def modeChoices : List String := ["sgd", "easgd", "gem"]

/-- Argparse validation of the `--mode` option: a value outside
`choices` makes `parse_args` print an error and exit with status 2. -/
def parseModeArg (s : String) : Except Unit String :=
  if s ∈ modeChoices then .ok s else .error ()

/-- Which synchronization algorithm object the driver constructs
(`TrainingDriver.py` lines 199-218); `none` models the final `else`
branch where only a log line is emitted and `algo` is never bound. -/
inductive AlgoChoice
  | easgdAlgo
  | gemAlgo
  | sgdAlgo
  deriving DecidableEq, Repr

/-- `TrainingDriver.py` lines 199-218: the if/elif chain on `args.mode`. -/
def dispatchAlgo (mode : String) : Option AlgoChoice :=
  if mode = "easgd" then some .easgdAlgo
  else if mode = "gem" then some .gemAlgo
  else if mode = "sgd" then some .sgdAlgo
  else none

/-- Outcome of the driver start-up with respect to the `--mode` option. -/
inductive DriverOutcome
  | argparseExit (code : ℕ)
  | crashBeforeManager (e : PyErr)
  | launched (a : AlgoChoice)
  deriving DecidableEq, Repr

/-- The driver's control path determined by the mode string: argparse
validates `--mode` first (line 89); after a successful parse the if/elif
chain selects the `Algo`; were an unknown mode to get past argparse, the
unbound name `algo` would raise `NameError` at line 220/224 before the
`MPIManager` is constructed. -/
def trainingDriverMain (mode : String) : DriverOutcome :=
  match parseModeArg mode with
  | .error _ => .argparseExit 2
  | .ok m =>
      match dispatchAlgo m with
      | some a => .launched a
      | none => .crashBeforeManager .nameError

/-! ## TrainingDriver.py: model-builder probe (claim C3) -/

/-- The names bound in `TrainingDriver.py`'s module namespace when the
builder probe at lines 149 and 179 executes: the imports of lines 5-21,
the local bindings made earlier in `__main__`, and the Python builtins
the script touches.  Notably the script spells the attribute probe
`hasttar`, while only `hasattr` exists. -/
def driverGlobals : List String :=
  ["sys", "os", "np", "argparse", "json", "re", "logging", "MPI",
   "time", "sleep", "MPIManager", "get_device", "Algo", "H5Data",
   "ModelFromJson", "ModelTensorFlow", "ModelPytorch", "import_keras",
   "Trace", "initialize_logger", "torch",
   "parser", "args", "a_backend", "m_module", "train_list", "val_list",
   "comm", "model_weights", "use_tf", "use_torch", "device", "hide_device",
   "hasattr", "open", "int", "len", "print", "vars", "format"]

/-- An imported Python module as the probe sees it: all that matters is
whether it exposes a `builder` attribute. -/
structure PyModule where
  hasBuilderAttr : Bool
  deriving DecidableEq, Repr

/-- The model-building strategy the driver ends up with. -/
inductive ModelBuilderChoice
  | fromModuleBuilder
  | frameworkDefault
  deriving DecidableEq, Repr

/-- `TrainingDriver.py` lines 149-152 and 179-182:
`if m_module and hasttar("builder", m_module): model_builder = m_module.builder
 else: model_builder = ModelPytorch(...)/ModelTensorFlow(...)`.
Python short-circuits on a falsy `m_module`; otherwise it must resolve
the name `hasttar`, raising `NameError` when it is not bound. -/
def selectModelBuilder (m_module : Option PyModule) : Except PyErr ModelBuilderChoice :=
  match m_module with
  | none => .ok .frameworkDefault
  | some m =>
      if driverGlobals.contains "hasttar" then
        if m.hasBuilderAttr then .ok .fromModuleBuilder
        else .ok .frameworkDefault
      else .error .nameError

/-! ## TrainingDriver.py: restore handling (claims C4 and C9) -/

/-- `re.sub(r'\.algo$', '', restore)` (`TrainingDriver.py` line 124):
drop one trailing `.algo` suffix when present. -/
def stripAlgoSuffix (s : String) : String :=
  if leadsWith ".algo".data.reverse s.data.reverse
  then ⟨s.data.take (s.data.length - 5)⟩
  else s

/-- `TrainingDriver.py` lines 123-127 followed by `algo.load(args.restore)`
at line 221: resolve the checkpoint identifier used to load algorithm
state.  `fs` maps a path to its content when the file exists.  `none`
models the `IndexError` raised by `splitlines()[-1]` on an empty
`.latest` file. -/
def restoreIdentifier (fs : String → Option String) (restore : String) : Option String :=
  let r := stripAlgoSuffix restore
  match fs (r ++ ".latest") with
  | some content => (splitlines content).getLast?
  | none => some r

/-- `TrainingDriver.py` lines 119 and 128-131, after the identifier was
resolved: under pytorch the driver sets `model_weights` only when
`<restore>.model` exists and then appends `'_w'`; appending to the still
unbound `None` raises `TypeError`.  Under keras `model_weights` is never
touched and stays `None`.  `isfile` models `os.path.isfile`. -/
def restoreModelWeights (use_torch : Bool) (isfile : String → Bool) (restore : String) :
    Except PyErr (Option String) :=
  let mw : Option String :=
    if use_torch && isfile (restore ++ ".model") then some (restore ++ ".model") else none
  if use_torch then
    match mw with
    | some w => .ok (some (w ++ "_w"))
    | none => .error .typeError
  else .ok mw

/-! ## TrainingDriver.py: EASGD elastic force (claim C1) -/

/-- `TrainingDriver.py` line 204: the `elastic_force` argument handed to
`Algo` under `mode == 'easgd'` is `args.elastic_force / (comm.Get_size()-1)`
where `comm.Get_size()` is the total MPI process count. -/
def easgdElasticForceArg (elastic_force : ℚ) (comm_size : ℕ) : ℚ :=
  elastic_force / ((comm_size : ℚ) - 1)

/-- Modelled from the spec: the `MPIManager` topology construction is not
among the given sources; per the spec's Process Role Manager section, the
communicator's ranks are split into `num_masters` groups, each holding
one Master and the rest as Workers, so the worker count is the
communicator size minus the number of masters. -/
def workerCount (comm_size num_masters : ℕ) : ℕ :=
  comm_size - num_masters

/-! ## validate_every in both drivers (claim C6) -/

/-- Python's `int()` on an exact rational: truncation toward zero. -/
def pyInt (q : ℚ) : ℤ :=
  if 0 ≤ q then ⌊q⌋ else -⌊-q⌋

/-- `TrainingDriver.py` line 196:
`validate_every = int(data.count_data()/args.batch)` — true division
followed by `int()` truncation. -/
def tdValidateEvery (count batch : ℕ) : ℤ :=
  pyInt ((count : ℚ) / (batch : ℚ))

/-- `hyperparameter_search_option3.py` line 171:
`validate_every = data.count_data()/args.batch` — true division with no
truncation, handed to `Algo` as is. -/
def hpValidateEvery (count batch : ℕ) : ℚ :=
  (count : ℚ) / (batch : ℚ)

/-! ## hyperparameter_search_option3.py: blocks and sanity checks
(claims C2, C7, C8) -/

/-- `hyperparameter_search_option3.py` lines 37-49: rank 0 is the
coordinator's block 0; every other rank `r` lands in block
`divmod(r-1, block_size).0 + 1`. -/
def get_block_num (rank block_size : ℕ) : ℕ :=
  if rank = 0 then 0 else (rank - 1) / block_size + 1

/-- `hyperparameter_search_option3.py` lines 51-52:
`assert args.block_size > 1` — an `AssertionError` for any block size
of at most 1, normal return otherwise.  `block_size` is an `int` from
argparse and may be negative. -/
def check_sanity (block_size : ℤ) : Except PyErr Unit :=
  if block_size > 1 then .ok () else .error .assertionError

/-- How far the hyperparameter-search `__main__` gets before training. -/
inductive HpOutcome
  | sanityFailure
  | topologyExit
  | running (numBlocks : ℕ)
  deriving DecidableEq, Repr

/-- The pre-training control flow of `hyperparameter_search_option3.py`
`__main__`: `check_sanity(args)` runs first (line 79); then lines
134-141 compute `divmod(world_size-1, block_size)` and call
`sys.exit(1)` whenever the remainder is nonzero (the `sys.exit(1)` at
line 141 sits directly under `if left_over:`, so it fires for every
nonzero remainder); only with remainder 0 does control reach
`comm_world.Split` and the training code. -/
def hpMain (block_size : ℤ) (world_size : ℕ) : HpOutcome :=
  match check_sanity block_size with
  | .error _ => .sanityFailure
  | .ok _ =>
      let bs : ℕ := block_size.toNat
      let num_blocks : ℕ := (world_size - 1) / bs
      let left_over : ℕ := (world_size - 1) % bs
      if left_over ≠ 0 then .topologyExit
      else .running num_blocks

/-! ## Theorems for the claims -/

/-- Claim C10: if the string torch occurs anywhere in the model file
path, the driver forces the pytorch backend regardless of the value of
the backend option; the backend choice takes effect only for model
paths that do not contain torch. -/
theorem torch_in_model_forces_backend (backend model : String) :
    (pyIn "torch" model = true → effectiveBackend backend model = "torch") ∧
    (pyIn "torch" model = false → effectiveBackend backend model = backend) := by
  unfold effectiveBackend
  constructor
  · intro h; simp [h]
  · intro h; simp [h]

/-- Witness for claim C10 at concrete model paths. -/
theorem torch_in_model_forces_backend_witness :
    effectiveBackend "keras" "my_torch_model.py" = "torch" ∧
    effectiveBackend "keras" "mnist_cnn.json" = "keras" :=
  ⟨(torch_in_model_forces_backend "keras" "my_torch_model.py").1 rfl,
   (torch_in_model_forces_backend "keras" "mnist_cnn.json").2 rfl⟩

/-- Claim C5: for every mode string outside sgd, easgd and gem the
driver exits at argparse validation with status 2 before any Algo or
MPIManager exists; even past argparse, the mode dispatch would bind no
Algo. -/
theorem invalid_mode_exits_before_training (s : String) (h : s ∉ modeChoices) :
    trainingDriverMain s = .argparseExit 2 ∧ dispatchAlgo s = none := by
  have hs : s ≠ "sgd" ∧ s ≠ "easgd" ∧ s ≠ "gem" := by
    simp only [modeChoices, List.mem_cons, List.not_mem_nil, or_false] at h
    push_neg at h
    exact h
  constructor
  · unfold trainingDriverMain parseModeArg
    rw [if_neg h]
  · unfold dispatchAlgo
    rw [if_neg hs.2.1, if_neg hs.2.2, if_neg hs.1]

/-- Witness for claim C5 at a concrete unsupported mode string. -/
theorem invalid_mode_exits_before_training_witness :
    trainingDriverMain "downpour" = .argparseExit 2 ∧ dispatchAlgo "downpour" = none :=
  invalid_mode_exits_before_training "downpour" (by decide)

/-- Claim C3 (code bug): the builder probe at TrainingDriver.py lines
149 and 179 spells the name hasttar, which is bound nowhere in the
driver module, so for every imported .py module the probe raises
NameError instead of selecting a strategy; only the no-module path
reaches the framework-default builder. -/
theorem builder_probe_always_raises :
    driverGlobals.contains "hasttar" = false ∧
    (∀ m : PyModule, selectModelBuilder (some m) = .error .nameError) ∧
    selectModelBuilder none = .ok .frameworkDefault :=
  ⟨rfl, fun _ => rfl, rfl⟩

/-- Claim C1 counterexample: with communicator size 3 and one master the
worker count P is 2, yet the coefficient passed by the code,
elastic_force/(comm_size-1) = (9/10)/2, differs from the claimed
elastic_force/(P-1) = 9/10; moreover under the claimed formula the sum
over the P workers would be 2 * (9/10), not elastic_force. -/
theorem easgd_force_formula_counterexample :
    easgdElasticForceArg (9/10) 3 ≠ (9/10 : ℚ) / ((workerCount 3 1 : ℚ) - 1) ∧
    (workerCount 3 1 : ℚ) * ((9/10 : ℚ) / ((workerCount 3 1 : ℚ) - 1)) ≠ (9/10 : ℚ) := by
  constructor <;> norm_num [easgdElasticForceArg, workerCount]

/-- Claim C1 amended: with mode easgd the coefficient passed to Algo is
elastic_force/(comm_size - 1); in the single-master topology the worker
count P equals comm_size - 1, so the coefficient is elastic_force / P
and the sum of the per-worker elastic forces over all P workers equals
elastic_force for every communicator size. -/
theorem easgd_force_sum_invariant (e : ℚ) (n : ℕ) (h : 2 ≤ n) :
    easgdElasticForceArg e n = e / (workerCount n 1 : ℚ) ∧
    (workerCount n 1 : ℚ) * easgdElasticForceArg e n = e := by
  have h1 : (workerCount n 1 : ℚ) = (n : ℚ) - 1 := by
    unfold workerCount
    rw [Nat.cast_sub (by omega)]
    norm_num
  have h2 : (workerCount n 1 : ℚ) ≠ 0 := by
    rw [h1]
    have hn : (2 : ℚ) ≤ (n : ℚ) := by exact_mod_cast h
    linarith
  constructor
  · unfold easgdElasticForceArg
    rw [h1]
  · unfold easgdElasticForceArg
    rw [← h1, mul_comm]
    exact div_mul_cancel₀ e h2

/-- Witness for the amended claim C1 at communicator size 3. -/
theorem easgd_force_sum_invariant_witness :
    easgdElasticForceArg (9/10) 3 = (9/10 : ℚ) / (workerCount 3 1 : ℚ) ∧
    (workerCount 3 1 : ℚ) * easgdElasticForceArg (9/10) 3 = (9/10 : ℚ) :=
  easgd_force_sum_invariant (9/10) 3 (by norm_num)

/-- Claim C2 (code bug): with 6 ranks and block_size 3 the 5
non-coordinator ranks leave remainder 2, enough for a master plus a
worker, yet the script still reaches sys.exit(1): the exit call sits
directly under the nonzero-remainder test, not under the
remainder-below-2 test. -/
theorem hp_remainder_two_still_exits :
    check_sanity 3 = .ok () ∧ (6 - 1) % 3 = 2 ∧ hpMain 3 6 = .topologyExit :=
  ⟨rfl, rfl, rfl⟩

/-- Claim C4 counterexample: under the keras backend with no checkpoint
file present at all, the driver neither reports nor aborts - it
proceeds with model_weights still unset. -/
theorem restore_keras_counterexample :
    restoreModelWeights false (fun _ => false) "ckpt" = .ok none := rfl

/-- Claim C4 amended: only under the pytorch backend does a missing
weight snapshot stop the run, and then via an unhandled TypeError when
the suffix append hits the unset value; under keras the driver never
probes the snapshot and always proceeds with no restored weights. -/
theorem restore_missing_snapshot (isfile : String → Bool) (r : String)
    (h : isfile (r ++ ".model") = false) :
    restoreModelWeights true isfile r = .error .typeError ∧
    restoreModelWeights false isfile r = .ok none := by
  constructor
  · unfold restoreModelWeights
    simp [h]
  · rfl

/-- Witness for the amended claim C4 on an empty filesystem. -/
theorem restore_missing_snapshot_witness :
    restoreModelWeights true (fun _ => false) "base" = .error .typeError ∧
    restoreModelWeights false (fun _ => false) "base" = .ok none :=
  restore_missing_snapshot (fun _ => false) "base" rfl

/-- Claim C6 counterexample: with 5 training examples and batch size 2,
TrainingDriver hands Algo the truncated integer 2 while the
hyperparameter driver hands it the untruncated quotient 5/2 - not the
same value and not an integer. -/
theorem validate_every_counterexample :
    tdValidateEvery 5 2 = 2 ∧ hpValidateEvery 5 2 = 5/2 ∧
    hpValidateEvery 5 2 ≠ ((tdValidateEvery 5 2 : ℤ) : ℚ) := by
  refine ⟨?_, ?_, ?_⟩ <;> norm_num [tdValidateEvery, hpValidateEvery, pyInt]

/-- Claim C6 amended: TrainingDriver passes the quotient of the training
example count by the batch size truncated to an integer, while the
hyperparameter driver passes the exact untruncated quotient; the two
agree exactly when the batch size divides the example count. -/
theorem validate_every_truncation (count batch : ℕ) (h : 0 < batch) :
    tdValidateEvery count batch = (count / batch : ℕ) ∧
    (hpValidateEvery count batch = ((count / batch : ℕ) : ℚ) ↔ batch ∣ count) := by
  have hq : (0:ℚ) ≤ (count:ℚ) / (batch:ℚ) := by positivity
  have hfloor : ⌊(count:ℚ) / (batch:ℚ)⌋ = (count / batch : ℕ) :=
    Rat.floor_natCast_div_natCast count batch
  have hb : (batch:ℚ) ≠ 0 := Nat.cast_ne_zero.mpr (by omega)
  constructor
  · unfold tdValidateEvery pyInt
    rw [if_pos hq, hfloor]
  · unfold hpValidateEvery
    constructor
    · intro he
      rw [div_eq_iff hb] at he
      have hcast : (count : ℚ) = ((count / batch * batch : ℕ) : ℚ) := by
        push_cast
        exact he
      have hc : count = count / batch * batch := by exact_mod_cast hcast
      exact ⟨count / batch, by rw [Nat.mul_comm]; exact hc⟩
    · rintro ⟨k, rfl⟩
      rw [Nat.mul_div_cancel_left k h]
      push_cast
      exact mul_div_cancel_left₀ (k : ℚ) hb

/-- Witness for the amended claim C6 at 6 examples and batch size 3. -/
theorem validate_every_truncation_witness :
    tdValidateEvery 6 3 = (6 / 3 : ℕ) ∧
    (hpValidateEvery 6 3 = ((6 / 3 : ℕ) : ℚ) ↔ 3 ∣ 6) :=
  validate_every_truncation 6 3 (by norm_num)

/-- Claim C7: get_block_num is a pure function of rank and block size;
rank 0 maps to block 0, every rank r of at least 1 maps to block
1 + (r-1)/block_size, membership in a non-coordinator block b is exactly
the contiguous range from (b-1)*block_size + 1 to b*block_size (so every
rank lies in exactly one block), and that range holds exactly block_size
ranks. -/
theorem get_block_num_partition (bs : ℕ) (hbs : 1 ≤ bs) :
    get_block_num 0 bs = 0 ∧
    (∀ r, 1 ≤ r → get_block_num r bs = 1 + (r - 1) / bs) ∧
    (∀ b, 1 ≤ b → ∀ r, (get_block_num r bs = b ↔ (b - 1) * bs + 1 ≤ r ∧ r ≤ b * bs)) ∧
    (∀ b, 1 ≤ b → (Finset.Icc ((b - 1) * bs + 1) (b * bs)).card = bs) := by
  have hbs0 : 0 < bs := hbs
  refine ⟨rfl, ?_, ?_, ?_⟩
  · intro r hr
    unfold get_block_num
    rw [if_neg (by omega), Nat.add_comm]
  · intro b hb r
    by_cases hr : r = 0
    · subst hr
      unfold get_block_num
      rw [if_pos rfl]
      constructor
      · intro h0
        omega
      · rintro ⟨h1, _⟩
        exact absurd h1 (by simp)
    · have hr1 : 1 ≤ r := by omega
      have hg : get_block_num r bs = (r - 1) / bs + 1 := by
        unfold get_block_num
        rw [if_neg hr]
      rw [hg]
      have e1 : b - 1 ≤ (r - 1) / bs ↔ (b - 1) * bs ≤ r - 1 :=
        Nat.le_div_iff_mul_le hbs0
      have e2 : (r - 1) / bs < b ↔ r - 1 < b * bs :=
        Nat.div_lt_iff_lt_mul hbs0
      constructor
      · intro h
        have hq : (r - 1) / bs = b - 1 := by rw [← h, Nat.add_sub_cancel]
        constructor
        · have hle : (b - 1) * bs ≤ r - 1 := e1.mp (le_of_eq hq.symm)
          have : (b - 1) * bs + 1 ≤ (r - 1) + 1 := Nat.add_le_add_right hle 1
          exact le_trans this (by omega)
        · have hlt : (r - 1) / bs < b := by rw [hq]; omega
          have h3 : r - 1 < b * bs := e2.mp hlt
          have h4 : (r - 1) + 1 ≤ b * bs := Nat.succ_le_of_lt h3
          exact le_trans (by omega) h4
      · rintro ⟨h1, h2⟩
        have ha : (b - 1) * bs ≤ r - 1 := Nat.le_pred_of_lt (Nat.lt_of_succ_le h1)
        have hb2 : r - 1 < b * bs := lt_of_lt_of_le (by omega) h2
        have g1 : b - 1 ≤ (r - 1) / bs := e1.mpr ha
        have g2 : (r - 1) / bs < b := e2.mpr hb2
        have : (r - 1) / bs = b - 1 := le_antisymm (Nat.le_pred_of_lt g2) g1
        rw [this]
        omega
  · intro b hb
    have hsum : ∀ t : ℕ, (t + bs) + 1 - (t + 1) = bs := fun t => by omega
    have hmul : (b - 1) * bs + bs = b * bs := by
      have hb1 : b - 1 + 1 = b := by omega
      calc (b - 1) * bs + bs = ((b - 1) + 1) * bs := by ring
        _ = b * bs := by rw [hb1]
    rw [Nat.card_Icc, ← hmul]
    exact hsum _

/-- Witness for claim C7 at block size 3. -/
theorem get_block_num_partition_witness :
    get_block_num 5 3 = 1 + (5 - 1) / 3 ∧
    (get_block_num 4 3 = 2 ↔ (2 - 1) * 3 + 1 ≤ 4 ∧ 4 ≤ 2 * 3) ∧
    (Finset.Icc ((2 - 1) * 3 + 1) (2 * 3)).card = 3 := by
  have h := get_block_num_partition 3 (by norm_num)
  exact ⟨h.2.1 5 (by norm_num), h.2.2.1 2 (by norm_num) 4, h.2.2.2 2 (by norm_num)⟩

/-- Claim C8: check_sanity raises AssertionError for every block size of
at most 1 and returns normally for every block size of at least 2; in
the main flow a failing check stops the run at the sanity stage, before
the communicator split or any training stage is reached. -/
theorem check_sanity_boundary (block_size : ℤ) (world_size : ℕ) :
    (block_size ≤ 1 →
      check_sanity block_size = .error .assertionError ∧
      hpMain block_size world_size = .sanityFailure) ∧
    (2 ≤ block_size → check_sanity block_size = .ok ()) := by
  constructor
  · intro h
    have hc : check_sanity block_size = .error .assertionError := by
      unfold check_sanity
      rw [if_neg (by omega)]
    refine ⟨hc, ?_⟩
    unfold hpMain
    rw [hc]
  · intro h
    unfold check_sanity
    rw [if_pos (by omega)]

/-- Witness for claim C8 at block sizes 1 and 2. -/
theorem check_sanity_boundary_witness :
    (check_sanity 1 = .error .assertionError ∧ hpMain 1 5 = .sanityFailure) ∧
    check_sanity 2 = .ok () :=
  ⟨(check_sanity_boundary 1 5).1 (by norm_num), (check_sanity_boundary 2 5).2 (by norm_num)⟩

/-- Claim C9: after one trailing .algo suffix is stripped, the
identifier used to load algorithm state is the last line of the .latest
file when that file exists, and the stripped path itself when it does
not. -/
theorem restore_identifier_resolution (fs : String → Option String) (p : String) :
    (∀ c, fs (stripAlgoSuffix p ++ ".latest") = some c →
      restoreIdentifier fs p = (splitlines c).getLast?) ∧
    (fs (stripAlgoSuffix p ++ ".latest") = none →
      restoreIdentifier fs p = some (stripAlgoSuffix p)) := by
  constructor
  · intro c hc
    simp only [restoreIdentifier, hc]
  · intro hn
    simp only [restoreIdentifier, hn]

/-- Witness for claim C9: a two-line .latest file resolves to its last
line, and a missing .latest file resolves to the stripped path. -/
theorem restore_identifier_resolution_witness :
    restoreIdentifier (fun s => if s = "ckpt.latest" then some "id1\nid2" else none)
      "ckpt.algo" = some "id2" ∧
    restoreIdentifier (fun _ => none) "x.algo" = some "x" := by
  constructor
  · rw [(restore_identifier_resolution
      (fun s => if s = "ckpt.latest" then some "id1\nid2" else none) "ckpt.algo").1
      "id1\nid2" rfl]
    rfl
  · rw [(restore_identifier_resolution (fun _ => none) "x.algo").2 rfl]
    rfl
